import Mathlib

/-!
Verification of the single-bundle enrichment algorithm in
`scripts/transform.py` (`_transform_bundle`): a shallow embedding of the
bundle data model, the entry classification pass, identifier derivation,
attachment rewriting, enrichment synthesis and the write/summary phases,
together with theorems settling the specified properties.

Modelling conventions:
* Machine strings are Lean `String`; the character-level operations the
  program uses (`split`, `replace`, `strip`, substring tests) are defined
  below over `List Char` so that every definition is executable.
* Base64 transport is elided: an attachment's `data` field holds the
  *decoded* text (base64 encode/decode is a bijection on the payloads the
  program round-trips).  `base64.b64decode(None)` raising `TypeError` is
  modelled as a `decodeError` on an absent payload.
* Python exceptions become an error type `TError`; an aborted run produces
  no output file, modelled by the `written` field of `RunResult`.
-/

set_option autoImplicit false

deriving instance DecidableEq for Except

namespace Transform

/-- `startsWithSeq pat xs` : `pat` is a prefix of `xs` (character lists). -/
def startsWithSeq : List Char → List Char → Bool
  | [], _ => true
  | _ :: _, [] => false
  | p :: ps, c :: cs => p == c && startsWithSeq ps cs

/-- `containsSeq pat xs` : `pat` occurs as a contiguous subsequence of `xs`.
Models Python's `pat in s` substring test. -/
def containsSeq (pat : List Char) : List Char → Bool
  | [] => startsWithSeq pat []
  | c :: cs => startsWithSeq pat (c :: cs) || containsSeq pat cs

/-- Python `s in t` on strings. -/
def strContains (hay pat : String) : Bool :=
  containsSeq pat.data hay.data

/-- `endsWithSeq pat xs` : `pat` is a suffix of `xs`. -/
def endsWithSeq (pat xs : List Char) : Bool :=
  startsWithSeq pat.reverse xs.reverse

/-- Python `s.endswith(t)`. -/
def strEndsWith (hay pat : String) : Bool :=
  endsWithSeq pat.data hay.data

/-- Python `s.split(sep)` for a one-character separator: split at every
occurrence, keeping empty fields.  Always returns a non-empty list. -/
def splitOnChar (sep : Char) : List Char → List (List Char)
  | [] => [[]]
  | c :: cs =>
    let rest := splitOnChar sep cs
    if c == sep then [] :: rest
    else
      match rest with
      | [] => [[c]]
      | h :: t => (c :: h) :: t

/-- Python `line.split(' ')[-1]`: the trailing whitespace-delimited token.
`splitOnChar` never returns `[]`, so the default is never used. -/
def lastTokenOf (line : List Char) : List Char :=
  (splitOnChar ' ' line).getLastD []

/-- Worker for `removePat`, structurally recursive on a fuel bound so that
it evaluates by kernel reduction; the fuel never runs out when it starts at
the list's length, since every step consumes at least one character. -/
def removePatFuel (pat : List Char) : Nat → List Char → List Char
  | 0, xs => xs
  | _ + 1, [] => []
  | n + 1, c :: cs =>
    if startsWithSeq pat (c :: cs) then
      removePatFuel pat n (cs.drop (pat.length - 1))
    else
      c :: removePatFuel pat n cs

/-- Python `s.replace(pat, '')` for a non-empty `pat`: remove every
occurrence, scanning left to right, non-overlapping. -/
def removePat (pat xs : List Char) : List Char :=
  removePatFuel pat xs.length xs

/-- Python `s.strip('{}')`: drop leading and trailing brace characters. -/
def stripBraces (xs : List Char) : List Char :=
  let isBrace := fun c => c == '{' || c == '}'
  ((xs.dropWhile isBrace).reverse.dropWhile isBrace).reverse

def isHexChar (c : Char) : Bool :=
  c.isDigit || ('a' ≤ c && c ≤ 'f') || ('A' ≤ c && c ≤ 'F')

def hexLower (c : Char) : Char := c.toLower

/-- Canonical dashed 8-4-4-4-12 form of a 32-hex-digit character list,
as produced by `str(uuid.UUID(...))`. -/
def formatUUID (t : List Char) : String :=
  ⟨t.take 8 ++ '-' :: ((t.drop 8).take 4 ++ '-' ::
    ((t.drop 12).take 4 ++ '-' :: ((t.drop 16).take 4 ++ '-' :: t.drop 20)))⟩

def urnPat : List Char := ['u', 'r', 'n', ':']
def uuidPat : List Char := ['u', 'u', 'i', 'd', ':']
def dashPat : List Char := ['-']

/-- Models the parsing path of Python's `uuid.UUID(hex)` constructor:
remove `urn:` and `uuid:` occurrences, strip braces, remove dashes, and
require exactly 32 hexadecimal digits; the value is returned in canonical
lowercase dashed form (the result of `str` on the parsed UUID).  Returns
`none` where the constructor raises `ValueError`. -/
def parseUUID (s : String) : Option String :=
  let t := removePat dashPat (stripBraces (removePat uuidPat (removePat urnPat s.data)))
  if t.length == 32 && t.all isHexChar then
    some (formatUUID (t.map hexLower))
  else
    none

/-- Models `uuid.uuid5(namespace, name)` from the Python standard library:
a name-based, deterministic derivation of a new identifier from a namespace
UUID and a name.  The SHA-1 digest itself is external library code; it is
modelled as an abstract deterministic, injective combination of the
canonical namespace string and the name, which preserves the property the
program relies on: identical inputs always yield the identical output. -/
def uuid5 (ns name : String) : String :=
  ns ++ ":" ++ name

/-- The fixed genetic-analysis-panel code tested against a
DiagnosticReport's codings (line 37). -/
def panelCode : String := "55232-3"

/-- The DNA-file marker substring tested against decoded payloads
(lines 41 and 82). -/
def dnaMarker : String := "_dna.csv"

/-- The fixed marker phrase located by the line scan (line 79); note the
double space between "panel" and "stored". -/
def markerPhrase : String := "genetic analysis summary panel  stored in"

/-- An attachment of a DocumentReference (`content[0].attachment`).
`data` holds the decoded inline payload when present, `url` the external
location. -/
structure Attachment where
  data : Option String
  url : Option String
deriving Repr, DecidableEq

/-- A DocumentReference resource.  `attachment` is `none` when
`content[0].attachment` is absent (access then raises). -/
structure DocumentReferenceR where
  id : String
  attachment : Option Attachment
deriving Repr, DecidableEq

/-- A DiagnosticReport resource.  `coding` is the list of codes of
`code.coding` (`none` when `code`/`coding` is absent, in which case the
classification pass raises); `specimen` is the list of specimen reference
strings. -/
structure DiagnosticReportR where
  id : String
  coding : Option (List String)
  subject : Option String
  specimen : Option (List String)
deriving Repr, DecidableEq

/-- A Condition resource: the `(code, display)` pairs of `code.coding`
(empty list models absent/empty coding, on which the summary raises). -/
structure ConditionR where
  coding : List (String × String)
deriving Repr, DecidableEq

/-- A synthesized Specimen resource. -/
structure SpecimenR where
  id : String
  text : String
  subject : Option String
deriving Repr, DecidableEq

/-- A Task input or output: the code of `type.coding[0]` and the
`valueReference.reference` string. -/
structure TaskParam where
  typeCode : String
  reference : String
deriving Repr, DecidableEq

/-- A synthesized Task resource. -/
structure TaskR where
  id : String
  text : String
  focus : Option String
  input : List TaskParam
  output : List TaskParam
  status : Option String
  intent : Option String
deriving Repr, DecidableEq

/-- A bundle entry's resource, by declared resource type.  `other` covers
the resource types the transform never touches. -/
inductive Resource where
  | patient (id : String)
  | condition (c : ConditionR)
  | diagnosticReport (d : DiagnosticReportR)
  | documentReference (d : DocumentReferenceR)
  | specimen (s : SpecimenR)
  | task (t : TaskR)
  | other (resourceType : String)
deriving Repr, DecidableEq

/-- A bundle: an ordered sequence of entries, each wrapping one resource. -/
structure Bundle where
  entry : List Resource
deriving Repr, DecidableEq

/-- The Python exceptions `_transform_bundle` can raise, by kind. -/
inductive TError where
  /-- `AttributeError`: attribute access on `None` (absent
  `code.coding`, absent `content[0].attachment`, absent patient). -/
  | attributeError
  /-- `IndexError`: `coding[0]` on an empty Condition coding. -/
  | indexError
  /-- `TypeError` from `base64.b64decode(None)`: an inline payload that
  is absent where the program decodes unconditionally. -/
  | decodeError
  /-- `ValueError` from `uuid.UUID(...)` on a non-parseable identifier
  (spec kind MalformedIdentifier). -/
  | malformedIdentifier
  /-- `AssertionError` at line 70 (spec kind MissingDocumentCarrier). -/
  | missingDocumentCarrier
  /-- `AssertionError` at line 80 or 82 (spec kind
  AttachmentFormatViolation). -/
  | attachmentFormatViolation
deriving Repr, DecidableEq

/-- The four collections produced by the classification pass
(lines 26–44). -/
structure Classified where
  patient : Option String
  diagnosticReports : List DiagnosticReportR
  documentReferences : List DocumentReferenceR
  conditions : List ConditionR
deriving Repr, DecidableEq

/-- Does a DiagnosticReport qualify (line 37): `'55232-3' in codes`. -/
def qualifiesDR (d : DiagnosticReportR) : Bool :=
  match d.coding with
  | some codes => codes.contains panelCode
  | none => false

/-- Classification of one DocumentReference (lines 40–42): decode
`content[0].attachment.data` unconditionally and test for the DNA marker.
An absent attachment raises `AttributeError`; an absent payload raises
`TypeError` inside `b64decode`. -/
def classifyDoc (d : DocumentReferenceR) : Except TError Bool :=
  match d.attachment with
  | none => .error .attributeError
  | some att =>
    match att.data with
    | none => .error .decodeError
    | some payload => .ok (strContains payload dnaMarker)

/-- One step of the classification loop (lines 31–44). -/
def classifyStep (acc : Classified) (r : Resource) : Except TError Classified :=
  match r with
  | .patient pid => .ok { acc with patient := some pid }
  | .diagnosticReport d =>
    match d.coding with
    | none => .error .attributeError
    | some codes =>
      .ok (if codes.contains panelCode then
            { acc with diagnosticReports := acc.diagnosticReports ++ [d] }
          else acc)
  | .documentReference d =>
    match classifyDoc d with
    | .error e => .error e
    | .ok true => .ok { acc with documentReferences := acc.documentReferences ++ [d] }
    | .ok false => .ok acc
  | .condition c => .ok { acc with conditions := acc.conditions ++ [c] }
  | .specimen _ => .ok acc
  | .task _ => .ok acc
  | .other _ => .ok acc

def classifyFrom (acc : Classified) : List Resource → Except TError Classified
  | [] => .ok acc
  | r :: rest =>
    match classifyStep acc r with
    | .error e => .error e
    | .ok acc' => classifyFrom acc' rest

/-- The Reference Resolver: the single classification pass over the
bundle's entries (lines 26–44). -/
def classifyEntries (es : List Resource) : Except TError Classified :=
  classifyFrom ⟨none, [], [], []⟩ es

/-- The Identifier Deriver (§4.2): the composite
`str(uuid.uuid5(uuid.UUID(srcId), role))` used at lines 52, 62 and 88. -/
def deriveIdentifier (srcId role : String) : Except TError String :=
  match parseUUID srcId with
  | none => .error .malformedIdentifier
  | some u => .ok (uuid5 u role)

def specimenNarrative : String :=
  "Autogenerated specimen. Inserted to make data model research friendly."

def taskNarrative : String :=
  "Autogenerated task. Inserted to make data model research friendly."

/-- The Attachment Rewriter (lines 74–85, on the clone): decode the inline
payload, split into lines, find the first line containing the marker
phrase, take its trailing whitespace-delimited token as the path, require
the DNA marker substring in it, and produce the altered attachment with
the payload cleared and the url set. -/
def rewriteContent (doc : DocumentReferenceR) : Except TError Attachment :=
  match doc.attachment with
  | none => .error .attributeError
  | some att =>
    match att.data with
    | none => .error .decodeError
    | some payload =>
      match (splitOnChar '\n' payload.data).find? (fun l => containsSeq markerPhrase.data l) with
      | none => .error .attachmentFormatViolation
      | some line =>
        if containsSeq dnaMarker.data (lastTokenOf line) then
          .ok { data := none, url := some ⟨lastTokenOf line⟩ }
        else
          .error .attachmentFormatViolation

/-- The specimen reference string `f"{specimen.resource_type}/{specimen.id}"`
(line 56), from the parsed report identifier `u`. -/
def specimenRefOf (u : String) : String :=
  "Specimen/" ++ uuid5 u "specimen"

/-- The Specimen synthesized at lines 51–54. -/
def mkSpecimen (u : String) (dr : DiagnosticReportR) : SpecimenR :=
  { id := uuid5 u "specimen", text := specimenNarrative, subject := dr.subject }

/-- The clone rewritten at lines 75–88: the altered attachment with its
derived identifier. -/
def mkRewrittenDoc (u : String) (att : Attachment) : DocumentReferenceR :=
  { id := uuid5 u "document_reference_with_url", attachment := some att }

/-- The Task as finally assembled (lines 61–95).  `task.output` is first
assigned the DiagnosticReport reference at line 66 (`task0` below) and
then reassigned wholesale at line 90 — the comment there says "add it to
task", but the assignment replaces, so only the DocumentReference
reference remains in the final value. -/
def mkTask (u : String) (dr : DiagnosticReportR) : TaskR :=
  let task0 : TaskR :=
    { id := uuid5 u "task"
      text := taskNarrative
      focus := some (specimenRefOf u)
      input := [⟨"specimen", specimenRefOf u⟩]
      output := [⟨"DiagnosticReport", "DiagnosticReport/" ++ dr.id⟩]
      status := none
      intent := none }
  { task0 with
    output := [⟨"DocumentReference",
      "DocumentReference/" ++ uuid5 u "document_reference_with_url"⟩]
    status := some "completed"
    intent := some "order" }

/-- The per-report body of the enrichment loop (lines 49–97): synthesize
the Specimen, the rewritten DocumentReference and the Task for one
qualifying DiagnosticReport.  `uuid.UUID(diagnostic_report.id)` is parsed
first (line 52); the carrier assertion `len(document_references) == 1`
comes after (line 70); the line scan after that.  The record
constructions in between are pure, so they are carried by the helper
definitions above without changing any observable outcome. -/
def enrichOne (docRefs : List DocumentReferenceR) (dr : DiagnosticReportR) :
    Except TError (SpecimenR × DocumentReferenceR × TaskR) :=
  match parseUUID dr.id with
  | none => .error .malformedIdentifier
  | some u =>
    match docRefs with
    | [doc] =>
      match rewriteContent doc with
      | .error e => .error e
      | .ok att => .ok (mkSpecimen u dr, mkRewrittenDoc u att, mkTask u dr)
    | _ => .error .missingDocumentCarrier

/-- The enrichment loop over all qualifying DiagnosticReports
(lines 49–97): sequential, the first raised error aborts. -/
def enrichAll (docRefs : List DocumentReferenceR) :
    List DiagnosticReportR → Except TError (List (SpecimenR × DocumentReferenceR × TaskR))
  | [] => .ok []
  | dr :: rest =>
    match enrichOne docRefs dr with
    | .error e => .error e
    | .ok t =>
      match enrichAll docRefs rest with
      | .error e => .error e
      | .ok ts => .ok (t :: ts)

/-- The in-place mutation `diagnostic_report.specimen = [specimen_reference]`
(lines 56–57), reflected on the bundle's own entries: every qualifying
DiagnosticReport gains its derived specimen reference.  The `none` branch
(identifier that fails to parse) is unreachable on any run that reaches the
write, since `enrichOne` already raised for that report. -/
def markDR (r : Resource) : Resource :=
  match r with
  | .diagnosticReport d =>
    if qualifiesDR d then
      match parseUUID d.id with
      | some u =>
        .diagnosticReport { d with specimen := some [specimenRefOf u] }
      | none => .diagnosticReport d
    else .diagnosticReport d
  | r => r

/-- The synthesized entries appended to the bundle (lines 59, 86, 97,
then 99–102): per report, the Specimen, then the rewritten
DocumentReference, then the Task, in loop order. -/
def additionalEntries : List (SpecimenR × DocumentReferenceR × TaskR) → List Resource
  | [] => []
  | t :: rest =>
    Resource.specimen t.1 :: Resource.documentReference t.2.1 :: Resource.task t.2.2 ::
      additionalEntries rest

/-- The per-file summary returned at lines 111–114. -/
structure Summary where
  patient_id : String
  conditions : List (String × String)
deriving Repr, DecidableEq

/-- The condition list comprehension at line 113: `coding[0]` raises
`IndexError` on an empty coding. -/
def conditionPairs : List ConditionR → Except TError (List (String × String))
  | [] => .ok []
  | c :: rest =>
    match c.coding.head? with
    | none => .error .indexError
    | some p =>
      match conditionPairs rest with
      | .error e => .error e
      | .ok ps => .ok (p :: ps)

/-- The summary construction (lines 111–114): `patient.id` raises
`AttributeError` when no Patient entry was seen. -/
def summarize (c : Classified) : Except TError Summary :=
  match c.patient with
  | none => .error .attributeError
  | some pid =>
    match conditionPairs c.conditions with
    | .error e => .error e
    | .ok pairs => .ok { patient_id := pid, conditions := pairs }

/-- The observable outcome of one `_transform_bundle` call: `written` is
the output file's bundle when the write at line 106 was reached (the file
is left behind even if a later step raises), `result` the returned summary
or the raised error. -/
structure RunResult where
  written : Option Bundle
  result : Except TError Summary
deriving Repr, DecidableEq

/-- Lines 104–114: the write always happens once control reaches it, and
only then is the summary constructed. -/
def writeAndSummarize (b : Bundle) (c : Classified) : RunResult :=
  { written := some b, result := summarize c }

/-- `_transform_bundle` (lines 22–114): classify the entries; if any
DiagnosticReport qualifies, run the enrichment loop, mutate the qualifying
reports and append the synthesized entries; write the bundle; construct
the summary. -/
def _transform_bundle (b : Bundle) : RunResult :=
  match classifyEntries b.entry with
  | .error e => { written := none, result := .error e }
  | .ok c =>
    if c.diagnosticReports.isEmpty then
      writeAndSummarize b c
    else
      match enrichAll c.documentReferences c.diagnosticReports with
      | .error e => { written := none, result := .error e }
      | .ok triples =>
        writeAndSummarize ⟨b.entry.map markDR ++ additionalEntries triples⟩ c

/-- The Task resources of a written bundle (`none` written ↦ `[]`). -/
def writtenTasks (r : RunResult) : List TaskR :=
  match r.written with
  | none => []
  | some b =>
    b.entry.filterMap (fun e =>
      match e with
      | .task t => some t
      | _ => none)

/-- The location string of an attachment (`""` when absent). -/
def urlOf (a : Attachment) : String :=
  a.url.getD ""

/-! Concrete inputs used by the counterexamples and witnesses below. -/

/-- A qualifying DiagnosticReport with a well-formed identifier. -/
def exDR : DiagnosticReportR :=
  { id := "11111111-2222-3333-4444-555555555555", coding := some ["55232-3"],
    subject := some "Patient/p1", specimen := none }

/-- A qualifying DocumentReference whose payload carries the marker line. -/
def exDoc : DocumentReferenceR :=
  { id := "docA",
    attachment := some
      { data := some "note\ngenetic analysis summary panel  stored in /data/p1_dna.csv",
        url := none } }

/-- A fully qualifying bundle on which enrichment succeeds end to end. -/
def exB1 : Bundle :=
  ⟨[.patient "p1", .diagnosticReport exDR, .documentReference exDoc]⟩

/-- The triple `enrichOne` synthesizes for `exDR` against `[exDoc]` (the
fallback branch is never taken; it only makes the match total). -/
def exTriple : SpecimenR × DocumentReferenceR × TaskR :=
  match enrichOne [exDoc] exDR with
  | .ok t => t
  | .error _ => (⟨"", "", none⟩, ⟨"", none⟩, ⟨"", "", none, [], [], none, none⟩)

/-- A qualifying DocumentReference whose marker line's trailing token
contains `_dna.csv` without ending in it. -/
def cex2Doc : DocumentReferenceR :=
  { id := "d2",
    attachment := some
      { data := some "genetic analysis summary panel  stored in /tmp/a_dna.csv.gz",
        url := none } }

/-- A qualifying DocumentReference for the rewriter witness. -/
def w2Doc : DocumentReferenceR :=
  { id := "d2w",
    attachment := some
      { data := some "genetic analysis summary panel  stored in /tmp/w2_dna.csv",
        url := none } }

/-- The attachment the rewriter produces for `w2Doc`. -/
def w2Att : Attachment :=
  { data := none, url := some "/tmp/w2_dna.csv" }

/-- A qualifying DiagnosticReport whose identifier does not parse. -/
def cex3DR : DiagnosticReportR :=
  { id := "not-a-uuid", coding := some ["55232-3"], subject := none, specimen := none }

/-- One qualifying DiagnosticReport, zero qualifying DocumentReferences,
malformed identifier. -/
def cex3B : Bundle := ⟨[.diagnosticReport cex3DR]⟩

/-- A qualifying DiagnosticReport with a well-formed identifier and no
document carrier in its bundle. -/
def w3DR : DiagnosticReportR :=
  { id := "22222222-2222-2222-2222-222222222222", coding := some ["55232-3"],
    subject := none, specimen := none }

/-- One qualifying DiagnosticReport, zero qualifying DocumentReferences,
well-formed identifier. -/
def w3B : Bundle := ⟨[.diagnosticReport w3DR]⟩

/-- A bundle with no qualifying DiagnosticReport: a patient, a condition,
a non-qualifying report and a non-qualifying document. -/
def w5B : Bundle :=
  ⟨[.patient "p5",
    .condition ⟨[("E11.9", "Type 2 diabetes")]⟩,
    .diagnosticReport { id := "d5", coding := some ["999-9"], subject := none, specimen := none },
    .documentReference { id := "doc5", attachment := some { data := some "plain note", url := none } }]⟩

/-- The classification of `w5B`. -/
def w5C : Classified :=
  ⟨some "p5", [], [], [⟨[("E11.9", "Type 2 diabetes")]⟩]⟩

def w6DR : DiagnosticReportR :=
  { id := "aaaaaaaa-bbbb-cccc-dddd-eeeeeeeeffff", coding := some ["55232-3"],
    subject := some "Patient/p6", specimen := none }

def w6Doc : DocumentReferenceR :=
  { id := "doc6",
    attachment := some
      { data := some "genetic analysis summary panel  stored in /tmp/w6_dna.csv",
        url := none } }

/-- A bundle with exactly one qualifying DiagnosticReport and exactly one
qualifying DocumentReference. -/
def w6B : Bundle :=
  ⟨[.patient "p6", .diagnosticReport w6DR, .documentReference w6Doc]⟩

/-- The classification of `w6B`. -/
def w6C : Classified :=
  ⟨some "p6", [w6DR], [w6Doc], []⟩

/-- The triple synthesized for `w6DR` (fallback never taken). -/
def w6T : SpecimenR × DocumentReferenceR × TaskR :=
  match enrichOne [w6Doc] w6DR with
  | .ok t => t
  | .error _ => (⟨"", "", none⟩, ⟨"", none⟩, ⟨"", "", none, [], [], none, none⟩)

/-- A DocumentReference whose attachment carries no inline payload. -/
def cex7Doc : DocumentReferenceR :=
  { id := "d7", attachment := some { data := none, url := some "s3://bucket/x" } }

/-- A bundle holding only a payload-less DocumentReference. -/
def cex7B : Bundle := ⟨[.documentReference cex7Doc]⟩

/-- Another payload-less DocumentReference, for the amended witness. -/
def w7Doc : DocumentReferenceR :=
  { id := "d7w", attachment := some { data := none, url := some "s3://bucket/y" } }

def w7Att : Attachment :=
  { data := none, url := some "s3://bucket/y" }

/-- A non-qualifying DocumentReference with a decodable payload. -/
def w8Doc : DocumentReferenceR :=
  { id := "doc8", attachment := some { data := some "an ordinary clinical note", url := none } }

/-- A bundle whose only entry is an original DocumentReference. -/
def w8B : Bundle := ⟨[.documentReference w8Doc]⟩

/-- A qualifying DiagnosticReport with a malformed identifier. -/
def w9DR : DiagnosticReportR :=
  { id := "w9-not-a-uuid", coding := some ["55232-3"], subject := none, specimen := none }

def w9B : Bundle := ⟨[.diagnosticReport w9DR]⟩

/-- No Patient entry, one qualifying DiagnosticReport, zero qualifying
DocumentReferences: enrichment aborts before the write. -/
def cex10DR : DiagnosticReportR :=
  { id := "33333333-3333-3333-3333-333333333333", coding := some ["55232-3"],
    subject := none, specimen := none }

def cex10B : Bundle := ⟨[.diagnosticReport cex10DR]⟩

/-- No Patient entry and nothing that qualifies: the write is reached. -/
def w10B : Bundle := ⟨[.condition ⟨[("C1", "D1")]⟩]⟩

/-- The classification of `w10B`. -/
def w10C : Classified :=
  ⟨none, [], [], [⟨[("C1", "D1")]⟩]⟩

end Transform

namespace Transform

/-! Helper lemmas shared by the claim theorems. -/

theorem containsSeq_ne_nil {pat xs : List Char} (h : containsSeq pat xs = true)
    (hp : pat ≠ []) : xs ≠ [] := by
  intro hx
  subst hx
  cases pat with
  | nil => exact hp rfl
  | cons p ps => simp [containsSeq, startsWithSeq] at h

theorem markDR_documentReference (r : DocumentReferenceR) :
    markDR (.documentReference r) = .documentReference r := rfl

theorem getElem?_map_append {l : List Resource} (add : List Resource) {i : Nat} {x : Resource}
    (h : l[i]? = some x) :
    (l.map markDR ++ add)[i]? = some (markDR x) := by
  induction l generalizing i with
  | nil => simp at h
  | cons a t ih =>
    cases i with
    | zero =>
      simp only [List.getElem?_cons_zero, Option.some.injEq] at h
      subst h
      simp
    | succ n =>
      simp only [List.getElem?_cons_succ] at h
      simpa using ih h

/-- C1.  The bundle `exB1` holds one qualifying DiagnosticReport and one
qualifying DocumentReference; enrichment succeeds, yet the synthesized
Task's outputs hold only the reference to the rewritten DocumentReference:
the TaskOutput referencing the DiagnosticReport, assigned at line 66, is
discarded by the reassignment of `task.output` at line 90 (whose comment
"add it to task" announces an addition).  Focus, input, status and intent
agree with the claim; the outputs do not. -/
theorem task_outputs_lack_report_reference :
    classifyEntries exB1.entry = .ok ⟨some "p1", [exDR], [exDoc], []⟩ ∧
    writtenTasks (_transform_bundle exB1) =
      [{ id := "11111111-2222-3333-4444-555555555555:task"
         text := taskNarrative
         focus := some "Specimen/11111111-2222-3333-4444-555555555555:specimen"
         input := [⟨"specimen", "Specimen/11111111-2222-3333-4444-555555555555:specimen"⟩]
         output := [⟨"DocumentReference",
           "DocumentReference/11111111-2222-3333-4444-555555555555:document_reference_with_url"⟩]
         status := some "completed"
         intent := some "order" }] ∧
    (_transform_bundle exB1).result = .ok ⟨"p1", []⟩ := by
  refine ⟨by decide, by decide, by decide⟩

/-- C2 (counterexample).  `cex2Doc` qualifies (its payload contains
`_dna.csv`), the line scan succeeds, and the rewrite completes, but the
resulting location `/tmp/a_dna.csv.gz` merely contains `_dna.csv` without
ending in it: the claim's "ending in `_dna.csv`" is false of the code,
which only requires a substring (line 82). -/
theorem rewritten_url_not_suffix :
    classifyDoc cex2Doc = .ok true ∧
    rewriteContent cex2Doc = .ok ⟨none, some "/tmp/a_dna.csv.gz"⟩ ∧
    strEndsWith "/tmp/a_dna.csv.gz" dnaMarker = false := by
  refine ⟨by decide, by decide, by decide⟩

/-- C2 (amended).  Whenever the rewriter's line scan succeeds (the rewrite
returns an attachment rather than raising), the rewritten attachment has
no inline payload and its location is a non-empty string *containing* the
substring `_dna.csv`. -/
theorem rewritten_attachment_cleared_and_marked
    (doc : DocumentReferenceR) (att : Attachment)
    (h : rewriteContent doc = .ok att) :
    att.data = none ∧ att.url = some (urlOf att) ∧ urlOf att ≠ "" ∧
      strContains (urlOf att) dnaMarker = true := by
  unfold rewriteContent at h
  split at h
  · cases h
  · split at h
    · cases h
    · split at h
      · cases h
      · split at h
        · rename_i hC
          cases h
          have hne := containsSeq_ne_nil hC (by decide)
          refine ⟨rfl, rfl, ?_, hC⟩
          intro hs
          exact hne (congrArg String.data hs)
        · cases h

/-- C2 (amended, witness): the amended statement evaluated on `w2Doc`. -/
theorem rewritten_attachment_cleared_and_marked_witness :
    w2Att.data = none ∧ w2Att.url = some (urlOf w2Att) ∧ urlOf w2Att ≠ "" ∧
      strContains (urlOf w2Att) dnaMarker = true :=
  rewritten_attachment_cleared_and_marked w2Doc w2Att (by decide)

/-- C3 (counterexample).  `cex3B` has one qualifying DiagnosticReport and
zero qualifying DocumentReferences, yet enrichment fails with the
MalformedIdentifier kind, not MissingDocumentCarrier: the identifier
parse at line 52 precedes the carrier assertion at line 70, and the
report's identifier does not parse.  (No output file is produced either
way.) -/
theorem carrier_violation_masked_by_malformed_id :
    classifyEntries cex3B.entry = .ok ⟨none, [cex3DR], [], []⟩ ∧
    _transform_bundle cex3B = ⟨none, .error .malformedIdentifier⟩ ∧
    TError.malformedIdentifier ≠ TError.missingDocumentCarrier := by
  refine ⟨by decide, by decide, by decide⟩

/-- C3 (amended).  For every bundle whose classification succeeds with at
least one qualifying DiagnosticReport, whose *first* qualifying report's
identifier parses as a UUID, and whose qualifying DocumentReference count
differs from one, enrichment fails with the MissingDocumentCarrier kind
and no output file is produced. -/
theorem missing_carrier_error
    (b : Bundle) (c : Classified) (dr : DiagnosticReportR)
    (rest : List DiagnosticReportR) (u : String)
    (hc : classifyEntries b.entry = .ok c)
    (hdr : c.diagnosticReports = dr :: rest)
    (hu : parseUUID dr.id = some u)
    (hn : c.documentReferences.length ≠ 1) :
    _transform_bundle b = ⟨none, .error .missingDocumentCarrier⟩ := by
  have hone : enrichOne c.documentReferences dr = .error .missingDocumentCarrier := by
    unfold enrichOne
    rw [hu]
    cases hd : c.documentReferences with
    | nil => rfl
    | cons d t =>
      cases t with
      | nil => exact absurd (by rw [hd]; rfl) hn
      | cons d2 t2 => rfl
  have hemp : c.diagnosticReports.isEmpty = false := by rw [hdr]; rfl
  have hall : enrichAll c.documentReferences c.diagnosticReports =
      .error .missingDocumentCarrier := by
    rw [hdr]
    unfold enrichAll
    rw [hone]
  simp only [_transform_bundle, hc, hemp, Bool.false_eq_true, if_false, hall]

/-- C3 (amended, witness): the amended statement evaluated on `w3B`. -/
theorem missing_carrier_error_witness :
    _transform_bundle w3B = ⟨none, .error .missingDocumentCarrier⟩ :=
  missing_carrier_error w3B ⟨none, [w3DR], [], []⟩ w3DR []
    "22222222-2222-2222-2222-222222222222" (by decide) rfl (by decide) (by decide)

/-- C4.  Every synthesized record's identifier is the value of the
deterministic Identifier Deriver on the source DiagnosticReport's
identifier and the role label ("specimen", "document_reference_with_url",
"task"): whenever the enrichment of a report succeeds, the three
synthesized identifiers are exactly `deriveIdentifier` of `(dr.id, role)`.
`deriveIdentifier` is a pure function, so two runs of the enrichment on
the same input necessarily reproduce the same identifiers. -/
theorem synthesized_ids_deterministic
    (docs : List DocumentReferenceR) (dr : DiagnosticReportR)
    (s : SpecimenR) (d : DocumentReferenceR) (t : TaskR)
    (h : enrichOne docs dr = .ok (s, d, t)) :
    deriveIdentifier dr.id "specimen" = .ok s.id ∧
    deriveIdentifier dr.id "document_reference_with_url" = .ok d.id ∧
    deriveIdentifier dr.id "task" = .ok t.id := by
  unfold enrichOne at h
  split at h
  · cases h
  · rename_i u hu
    split at h
    · split at h
      · cases h
      · injection h with h
        injection h with hs h
        injection h with hd ht
        subst hs
        subst hd
        subst ht
        unfold deriveIdentifier
        rw [hu]
        exact ⟨rfl, rfl, rfl⟩
    · cases h

/-- C4 (witness): the identifier equations evaluated on the concrete
enrichment of `exDR` against `[exDoc]`. -/
theorem synthesized_ids_deterministic_witness :
    deriveIdentifier exDR.id "specimen" = .ok exTriple.1.id ∧
    deriveIdentifier exDR.id "document_reference_with_url" = .ok exTriple.2.1.id ∧
    deriveIdentifier exDR.id "task" = .ok exTriple.2.2.id :=
  synthesized_ids_deterministic [exDoc] exDR exTriple.1 exTriple.2.1 exTriple.2.2 (by decide)

/-- C5.  For every bundle whose classification succeeds with zero
qualifying DiagnosticReports, the written output bundle is the input
bundle itself: same entry sequence, nothing added, nothing mutated. -/
theorem no_qualifying_reports_identity
    (b : Bundle) (c : Classified)
    (hc : classifyEntries b.entry = .ok c)
    (hdr : c.diagnosticReports = []) :
    (_transform_bundle b).written = some b := by
  have hemp : c.diagnosticReports.isEmpty = true := by rw [hdr]; rfl
  simp only [_transform_bundle, hc, hemp, if_true, writeAndSummarize]

/-- C5 (witness): evaluated on `w5B`, which holds a patient, a condition,
a non-qualifying DiagnosticReport and a non-qualifying DocumentReference. -/
theorem no_qualifying_reports_identity_witness :
    (_transform_bundle w5B).written = some w5B :=
  no_qualifying_reports_identity w5B w5C (by decide) rfl

/-- One classification step only ever adds DiagnosticReports that carry
the genetic-panel code. -/
theorem classifyStep_dr (acc acc' : Classified) (r : Resource)
    (h : classifyStep acc r = .ok acc') :
    ∀ d ∈ acc'.diagnosticReports, d ∈ acc.diagnosticReports ∨ qualifiesDR d = true := by
  intro d hd
  cases r with
  | patient pid =>
    have h' : Except.ok { acc with patient := some pid } = Except.ok acc' := h
    cases h'
    exact .inl hd
  | diagnosticReport dd =>
    have h' : (match dd.coding with
        | none => Except.error TError.attributeError
        | some codes =>
          Except.ok (if codes.contains panelCode then
              { acc with diagnosticReports := acc.diagnosticReports ++ [dd] }
            else acc)) = Except.ok acc' := h
    cases hcod : dd.coding with
    | none =>
      rw [hcod] at h'
      cases h'
    | some codes =>
      rw [hcod] at h'
      injection h' with h2
      by_cases hct : codes.contains panelCode = true
      · rw [if_pos hct] at h2
        subst h2
        rcases List.mem_append.mp hd with h1 | h1
        · exact .inl h1
        · right
          have hdd : d = dd := by simpa using h1
          subst hdd
          simpa [qualifiesDR, hcod] using hct
      · rw [if_neg hct] at h2
        subst h2
        exact .inl hd
  | documentReference dd =>
    have h' : (match classifyDoc dd with
        | Except.error e => Except.error e
        | Except.ok true =>
          Except.ok { acc with documentReferences := acc.documentReferences ++ [dd] }
        | Except.ok false => Except.ok acc) = Except.ok acc' := h
    cases hcd : classifyDoc dd with
    | error e =>
      rw [hcd] at h'
      cases h'
    | ok bb =>
      rw [hcd] at h'
      cases bb with
      | true =>
        injection h' with h2
        subst h2
        exact .inl hd
      | false =>
        injection h' with h2
        subst h2
        exact .inl hd
  | condition cc =>
    have h' : Except.ok { acc with conditions := acc.conditions ++ [cc] } = Except.ok acc' := h
    cases h'
    exact .inl hd
  | specimen ss =>
    have h' : Except.ok acc = Except.ok acc' := h
    cases h'
    exact .inl hd
  | task tt =>
    have h' : Except.ok acc = Except.ok acc' := h
    cases h'
    exact .inl hd
  | other o =>
    have h' : Except.ok acc = Except.ok acc' := h
    cases h'
    exact .inl hd

/-- Along the whole classification pass, every collected DiagnosticReport
qualifies. -/
theorem classifyFrom_dr_qualifies (es : List Resource) :
    ∀ acc c : Classified, classifyFrom acc es = .ok c →
      (∀ d ∈ acc.diagnosticReports, qualifiesDR d = true) →
      ∀ d ∈ c.diagnosticReports, qualifiesDR d = true := by
  induction es with
  | nil =>
    intro acc c h hacc
    cases h
    exact hacc
  | cons r rest ih =>
    intro acc c h hacc
    unfold classifyFrom at h
    cases hs : classifyStep acc r with
    | error e =>
      rw [hs] at h
      cases h
    | ok acc' =>
      rw [hs] at h
      refine ih acc' c h ?_
      intro d hd
      rcases classifyStep_dr acc acc' r hs d hd with h1 | h1
      · exact hacc d h1
      · exact h1

/-- Every DiagnosticReport the Reference Resolver collects qualifies. -/
theorem classifyEntries_dr_qualifies (es : List Resource) (c : Classified)
    (h : classifyEntries es = .ok c) :
    ∀ d ∈ c.diagnosticReports, qualifiesDR d = true :=
  classifyFrom_dr_qualifies es ⟨none, [], [], []⟩ c h (by intro d hd; simp at hd)

/-- C6.  For a bundle whose classification succeeds with exactly one
qualifying DiagnosticReport and exactly one qualifying DocumentReference,
and whose enrichment succeeds, the output bundle is exactly the original
entry sequence (with the qualifying report gaining exactly one specimen
reference) followed by exactly one new Specimen, one new rewritten
DocumentReference and one new Task, appended at the end in that order;
every entry that is not a qualifying DiagnosticReport is unchanged. -/
theorem single_report_enrichment_shape
    (b : Bundle) (c : Classified) (dr : DiagnosticReportR) (doc : DocumentReferenceR)
    (s : SpecimenR) (d : DocumentReferenceR) (t : TaskR)
    (hc : classifyEntries b.entry = .ok c)
    (hdr : c.diagnosticReports = [dr])
    (hdoc : c.documentReferences = [doc])
    (he : enrichOne [doc] dr = .ok (s, d, t)) :
    _transform_bundle b =
      ⟨some ⟨b.entry.map markDR ++ [.specimen s, .documentReference d, .task t]⟩,
        summarize c⟩ ∧
    (∃ u, parseUUID dr.id = some u ∧
      markDR (.diagnosticReport dr) =
        .diagnosticReport { dr with specimen := some [specimenRefOf u] }) ∧
    (∀ r : Resource,
      (∀ dd : DiagnosticReportR, r = .diagnosticReport dd → qualifiesDR dd = false) →
      markDR r = r) := by
  have hemp : c.diagnosticReports.isEmpty = false := by rw [hdr]; rfl
  have hall : enrichAll c.documentReferences c.diagnosticReports = .ok [(s, d, t)] := by
    rw [hdr, hdoc]
    unfold enrichAll
    rw [he]
    rfl
  refine ⟨?_, ?_, ?_⟩
  · simp only [_transform_bundle, hc, hemp, Bool.false_eq_true, if_false, hall,
      writeAndSummarize, additionalEntries]
  · have hq : qualifiesDR dr = true :=
      classifyEntries_dr_qualifies b.entry c hc dr (by rw [hdr]; exact List.mem_singleton.mpr rfl)
    unfold enrichOne at he
    split at he
    · cases he
    · rename_i u hu
      refine ⟨u, hu, ?_⟩
      simp [markDR, hq, hu]
  · intro r hr
    cases r with
    | diagnosticReport dd =>
      simp [markDR, hr dd rfl]
    | patient pid => rfl
    | condition cc => rfl
    | documentReference dd => rfl
    | specimen ss => rfl
    | task tt => rfl
    | other o => rfl

/-- C6 (witness): the output-shape equation evaluated on `w6B`. -/
theorem single_report_enrichment_shape_witness :
    _transform_bundle w6B =
      ⟨some ⟨w6B.entry.map markDR ++
        [.specimen w6T.1, .documentReference w6T.2.1, .task w6T.2.2]⟩,
        summarize w6C⟩ :=
  (single_report_enrichment_shape w6B w6C w6DR w6Doc w6T.1 w6T.2.1 w6T.2.2
    (by decide) rfl rfl (by decide)).1

/-- C7 (counterexample).  A bundle holding one DocumentReference whose
attachment carries no inline payload: the classification pass itself
fails (the code decodes `content[0].attachment.data` unconditionally at
line 40, and `base64.b64decode(None)` raises), contradicting the claim
that the resolver does not fail on such an entry. -/
theorem resolver_fails_on_absent_payload :
    classifyEntries cex7B.entry = .error .decodeError ∧
    _transform_bundle cex7B = ⟨none, .error .decodeError⟩ := by
  refine ⟨by decide, by decide⟩

/-- C7 (amended).  The classification pass decodes every
DocumentReference's first attachment unconditionally: on an attachment
carrying no inline payload it fails with the decode(type)-error kind —
it never classifies such an entry (as qualifying or otherwise). -/
theorem absent_payload_decode_error
    (d : DocumentReferenceR) (att : Attachment)
    (ha : d.attachment = some att) (hd : att.data = none) :
    classifyDoc d = .error .decodeError ∧
    ∀ acc : Classified, classifyStep acc (.documentReference d) = .error .decodeError := by
  have h1 : classifyDoc d = .error .decodeError := by
    simp [classifyDoc, ha, hd]
  refine ⟨h1, ?_⟩
  intro acc
  simp [classifyStep, h1]

/-- C7 (amended, witness): evaluated on the payload-less `w7Doc`. -/
theorem absent_payload_decode_error_witness :
    classifyDoc w7Doc = .error .decodeError ∧
    classifyStep ⟨none, [], [], []⟩ (.documentReference w7Doc) = .error .decodeError :=
  ⟨(absent_payload_decode_error w7Doc w7Att rfl rfl).1,
   (absent_payload_decode_error w7Doc w7Att rfl rfl).2 ⟨none, [], [], []⟩⟩

/-- C8.  Whenever a run writes an output bundle, every original
DocumentReference entry is carried into the output at its position,
byte-for-byte unchanged: its attachment still carries whatever inline
payload it had and no new location is set on it.  The rewritten
DocumentReference is a fresh appended value, never a mutation of the
original. -/
theorem original_entries_preserved
    (b out : Bundle) (i : Nat) (r : DocumentReferenceR)
    (hw : (_transform_bundle b).written = some out)
    (hi : b.entry[i]? = some (.documentReference r)) :
    out.entry[i]? = some (.documentReference r) := by
  unfold _transform_bundle at hw
  split at hw
  · exact Option.noConfusion hw
  · rename_i c hc
    split at hw
    · cases hw
      exact hi
    · split at hw
      · exact Option.noConfusion hw
      · rename_i ts hts
        cases hw
        have h := getElem?_map_append (additionalEntries ts) hi
        simpa [markDR_documentReference] using h

/-- C8 (witness): the only entry of `w8B` (an original DocumentReference
with its inline payload) survives at index 0 of the written output. -/
theorem original_entries_preserved_witness :
    (_transform_bundle w8B).written = some w8B ∧
    w8B.entry[0]? = some (.documentReference w8Doc) :=
  ⟨by decide, original_entries_preserved w8B w8B 0 w8Doc (by decide) rfl⟩

/-- C9.  A source identifier that does not parse as a UUID makes
identifier derivation fail with the MalformedIdentifier kind: at the
deriver itself, at the enrichment of any report carrying such an
identifier, and — when the first qualifying report carries one — for the
whole bundle, which aborts with that kind and produces no output file. -/
theorem malformed_identifier_aborts :
    (∀ srcId role : String, parseUUID srcId = none →
      deriveIdentifier srcId role = .error .malformedIdentifier) ∧
    (∀ (docs : List DocumentReferenceR) (dr : DiagnosticReportR),
      parseUUID dr.id = none →
      enrichOne docs dr = .error .malformedIdentifier) ∧
    (∀ (b : Bundle) (c : Classified) (dr : DiagnosticReportR)
      (rest : List DiagnosticReportR),
      classifyEntries b.entry = .ok c →
      c.diagnosticReports = dr :: rest →
      parseUUID dr.id = none →
      _transform_bundle b = ⟨none, .error .malformedIdentifier⟩) := by
  have h1 : ∀ srcId role : String, parseUUID srcId = none →
      deriveIdentifier srcId role = .error .malformedIdentifier := by
    intro srcId role h
    unfold deriveIdentifier
    rw [h]
  have h2 : ∀ (docs : List DocumentReferenceR) (dr : DiagnosticReportR),
      parseUUID dr.id = none →
      enrichOne docs dr = .error .malformedIdentifier := by
    intro docs dr h
    unfold enrichOne
    rw [h]
  refine ⟨h1, h2, ?_⟩
  intro b c dr rest hc hdr hu
  have hemp : c.diagnosticReports.isEmpty = false := by rw [hdr]; rfl
  have hall : enrichAll c.documentReferences c.diagnosticReports =
      .error .malformedIdentifier := by
    rw [hdr]
    unfold enrichAll
    rw [h2 _ _ hu]
  simp only [_transform_bundle, hc, hemp, Bool.false_eq_true, if_false, hall]

/-- C9 (witness): the three parts evaluated at concrete inputs. -/
theorem malformed_identifier_aborts_witness :
    deriveIdentifier "xyz" "task" = .error .malformedIdentifier ∧
    enrichOne [] w9DR = .error .malformedIdentifier ∧
    _transform_bundle w9B = ⟨none, .error .malformedIdentifier⟩ :=
  ⟨malformed_identifier_aborts.1 "xyz" "task" (by decide),
   malformed_identifier_aborts.2.1 [] w9DR (by decide),
   malformed_identifier_aborts.2.2 w9B ⟨none, [w9DR], [], []⟩ w9DR []
     (by decide) rfl (by decide)⟩

/-- If a run writes an output bundle, its returned result is the summary
of its classification. -/
theorem transform_result_of_written
    (b out : Bundle) (c : Classified)
    (hc : classifyEntries b.entry = .ok c)
    (hw : (_transform_bundle b).written = some out) :
    (_transform_bundle b).result = summarize c := by
  unfold _transform_bundle at hw ⊢
  simp only [hc] at hw ⊢
  by_cases hemp : c.diagnosticReports.isEmpty = true
  · simp [hemp, writeAndSummarize]
  · have hf : c.diagnosticReports.isEmpty = false := by
      rwa [Bool.not_eq_true] at hemp
    simp only [hf, Bool.false_eq_true, if_false] at hw ⊢
    cases he : enrichAll c.documentReferences c.diagnosticReports with
    | error e =>
      rw [he] at hw
      exact Option.noConfusion hw
    | ok ts =>
      simp [he, writeAndSummarize]

/-- C10 (counterexample).  `cex10B` has no Patient entry, but its
enrichment aborts (MissingDocumentCarrier) before the write at line 106:
no output file is left behind and the failure is not the summary
construction, contradicting the claim's universal "still writes the
output file and only then fails". -/
theorem no_output_on_enrichment_failure_without_patient :
    classifyEntries cex10B.entry = .ok ⟨none, [cex10DR], [], []⟩ ∧
    _transform_bundle cex10B = ⟨none, .error .missingDocumentCarrier⟩ := by
  refine ⟨by decide, by decide⟩

/-- C10 (amended).  For every bundle with no Patient entry on which the
write is reached (classification and enrichment raise nothing), the
output file is written first, and the run then fails constructing the
per-file summary (`patient.id` on `None`), leaving the output file
behind. -/
theorem missing_patient_fails_after_write
    (b : Bundle) (c : Classified) (out : Bundle)
    (hc : classifyEntries b.entry = .ok c)
    (hp : c.patient = none)
    (hw : (_transform_bundle b).written = some out) :
    (_transform_bundle b).result = .error .attributeError := by
  have hr := transform_result_of_written b out c hc hw
  rw [hr]
  unfold summarize
  rw [hp]

/-- C10 (amended, witness): evaluated on `w10B`, which has no Patient and
nothing qualifying, so the write is reached and the summary step fails. -/
theorem missing_patient_fails_after_write_witness :
    (_transform_bundle w10B).result = .error .attributeError :=
  missing_patient_fails_after_write w10B w10C w10B (by decide) rfl (by decide)

end Transform
